import Mathlib

/-!
Verification development for the cold-chain traceability pipeline:
a shallow embedding of `traceability_backend/data_cleaner.py` (event
validation, per-event hashing, batch accumulation and flushing) and of
`comp6452/upload_to_ipfs.py` (the Merkle-root aggregator), together with
theorems settling the specification's claims about them.

Python strings are modelled as `List Char`, bytes as `List Nat` with every
byte `< 256`, machine-word arithmetic as `Nat` reduced `% 2 ^ 32` where the
algorithm (SHA-256) wraps.
-/

namespace FoodChain

/-- Python `str`, modelled as its list of Unicode code points. -/
abbrev Str := List Char

/-- Python `bytes`, modelled as a list of naturals, each intended `< 256`. -/
abbrev Bytes := List Nat

/-! ## Hexadecimal codec (`bytes.fromhex` / `hexdigest` rendering) -/

/-- Lowercase hexadecimal digit for `n < 16`, as produced by `hexdigest`. -/
def hexDigitChar (n : Nat) : Char :=
  Char.ofNat (if n < 10 then 48 + n else 87 + n)

/-- Value of one hexadecimal digit character (both cases accepted, as by
Python's `bytes.fromhex`); `none` for a non-hex character. -/
def hexDigitVal (c : Char) : Option Nat :=
  if 48 ≤ c.toNat ∧ c.toNat ≤ 57 then some (c.toNat - 48)
  else if 97 ≤ c.toNat ∧ c.toNat ≤ 102 then some (c.toNat - 87)
  else if 65 ≤ c.toNat ∧ c.toNat ≤ 70 then some (c.toNat - 55)
  else none

/-- Render a byte string as its lowercase hex digest
(Python `hashlib...hexdigest()` / `bytes.hex()`). -/
def bytesToHex (bs : Bytes) : Str :=
  (bs.map (fun b => [hexDigitChar (b / 16), hexDigitChar (b % 16)])).flatten

/-- Decode a hex string into bytes (Python `bytes.fromhex` on
whitespace-free input): fails on an odd number of digits or a non-hex
character, mirroring the `ValueError` raised there. -/
def hexToBytes : Str → Option Bytes
  | [] => some []
  | c1 :: c2 :: rest =>
    match hexDigitVal c1, hexDigitVal c2, hexToBytes rest with
    | some hi, some lo, some tl => some ((16 * hi + lo) :: tl)
    | _, _, _ => none
  | [_] => none

/-! ## SHA-256 (`hashlib.sha256`), over bytes, words as `Nat % 2 ^ 32` -/

/-- Truncate to a 32-bit word. -/
def w32 (n : Nat) : Nat := n % 4294967296

/-- Right-rotation of a 32-bit word, in arithmetic form:
the high part `x / 2 ^ n` plus the wrapped-around low part. -/
def rotr32 (x n : Nat) : Nat := x / 2 ^ n + x % 2 ^ n * 2 ^ (32 - n)

def bigSigma0 (x : Nat) : Nat := rotr32 x 2 ^^^ rotr32 x 13 ^^^ rotr32 x 22

def bigSigma1 (x : Nat) : Nat := rotr32 x 6 ^^^ rotr32 x 11 ^^^ rotr32 x 25

def smallSigma0 (x : Nat) : Nat := rotr32 x 7 ^^^ rotr32 x 18 ^^^ x / 2 ^ 3

def smallSigma1 (x : Nat) : Nat := rotr32 x 17 ^^^ rotr32 x 19 ^^^ x / 2 ^ 10

/-- SHA-256 `Ch`; `4294967295 - w32 e` is the 32-bit complement of `e`. -/
def ch32 (e f g : Nat) : Nat := (e &&& f) ^^^ ((4294967295 - w32 e) &&& g)

def maj32 (a b c : Nat) : Nat := (a &&& b) ^^^ (a &&& c) ^^^ (b &&& c)

/-- The 64 SHA-256 round constants. -/
def sha256K : List Nat :=
  [1116352408, 1899447441, 3049323471, 3921009573, 961987163, 1508970993,
   2453635748, 2870763221, 3624381080, 310598401, 607225278, 1426881987,
   1925078388, 2162078206, 2614888103, 3248222580, 3835390401, 4022224774,
   264347078, 604807628, 770255983, 1249150122, 1555081692, 1996064986,
   2554220882, 2821834349, 2952996808, 3210313671, 3336571891, 3584528711,
   113926993, 338241895, 666307205, 773529912, 1294757372, 1396182291,
   1695183700, 1986661051, 2177026350, 2456956037, 2730485921, 2820302411,
   3259730800, 3345764771, 3516065817, 3600352804, 4094571909, 275423344,
   430227734, 506948616, 659060556, 883997877, 958139571, 1322822218,
   1537002063, 1747873779, 1955562222, 2024104815, 2227730452, 2361852424,
   2428436474, 2756734187, 3204031479, 3329325298]

/-- The SHA-256 initial hash state. -/
def sha256H0 : List Nat :=
  [1779033703, 3144134277, 1013904242, 2773480762,
   1359893119, 2600822924, 528734635, 1541459225]

/-- Big-endian packing of bytes into 32-bit words. -/
def bytesToWords : Bytes → List Nat
  | b0 :: b1 :: b2 :: b3 :: rest =>
    (((b0 * 256 + b1) * 256 + b2) * 256 + b3) :: bytesToWords rest
  | _ => []

/-- Extend the 16-word schedule by `t` further words. -/
def scheduleFrom (w : List Nat) : Nat → List Nat
  | 0 => w
  | t + 1 =>
    let n := w.length
    let nw := w32 (smallSigma1 (w.getD (n - 2) 0) + w.getD (n - 7) 0 +
                   smallSigma0 (w.getD (n - 15) 0) + w.getD (n - 16) 0)
    scheduleFrom (w ++ [nw]) t

/-- One SHA-256 round on the eight-word working state. -/
def sha256Round (st : List Nat) (kw : Nat × Nat) : List Nat :=
  match st with
  | [a, b, c, d, e, f, g, h] =>
    let t1 := w32 (h + bigSigma1 e + ch32 e f g + kw.1 + kw.2)
    let t2 := w32 (bigSigma0 a + maj32 a b c)
    [w32 (t1 + t2), a, b, c, w32 (d + t1), e, f, g]
  | other => other

/-- Compress one 64-byte block into the running hash state. -/
def sha256Compress (h : List Nat) (block : Bytes) : List Nat :=
  let w := scheduleFrom (bytesToWords block) 48
  let st := (sha256K.zip w).foldl sha256Round h
  h.zipWith (fun x y => w32 (x + y)) st

/-- Big-endian 8-byte encoding of the bit length. -/
def lenBytes64 (n : Nat) : Bytes :=
  [n / 2 ^ 56 % 256, n / 2 ^ 48 % 256, n / 2 ^ 40 % 256, n / 2 ^ 32 % 256,
   n / 2 ^ 24 % 256, n / 2 ^ 16 % 256, n / 2 ^ 8 % 256, n % 256]

/-- SHA-256 padding: `0x80`, zeros to 56 mod 64, then the 64-bit length. -/
def padMessage (msg : Bytes) : Bytes :=
  msg ++ 128 :: List.replicate ((119 - msg.length % 64) % 64) 0 ++
    lenBytes64 (8 * msg.length)

/-- Split into successive 64-byte blocks; `fuel` bounds the number of
blocks (each step strictly shortens the list, so `l.length` is enough). -/
def chunks64Aux : Nat → Bytes → List Bytes
  | 0, _ => []
  | _, [] => []
  | fuel + 1, b :: rest =>
    (b :: rest).take 64 :: chunks64Aux fuel ((b :: rest).drop 64)

/-- Split into successive 64-byte blocks. -/
def chunks64 (l : Bytes) : List Bytes := chunks64Aux l.length l

/-- Big-endian bytes of a 32-bit word. -/
def wordToBytes (w : Nat) : Bytes :=
  [w / 2 ^ 24 % 256, w / 2 ^ 16 % 256, w / 2 ^ 8 % 256, w % 256]

/-- SHA-256 of a byte string, as 32 raw digest bytes. -/
def sha256 (msg : Bytes) : Bytes :=
  (((chunks64 (padMessage msg)).foldl sha256Compress sha256H0).map
    wordToBytes).flatten

/-! ## UTF-8 encoding (`str.encode` of `'utf-8'`) -/

/-- UTF-8 bytes of one Unicode scalar value. -/
def utf8Char (c : Char) : Bytes :=
  let n := c.toNat
  if n < 128 then [n]
  else if n < 2048 then [192 + n / 64, 128 + n % 64]
  else if n < 65536 then [224 + n / 4096, 128 + n / 64 % 64, 128 + n % 64]
  else [240 + n / 262144, 128 + n / 4096 % 64, 128 + n / 64 % 64,
        128 + n % 64]

/-- UTF-8 encoding of a string. -/
def utf8Encode (s : Str) : Bytes := (s.map utf8Char).flatten

/-! ## JSON values and `json.dumps`

The events this pipeline carries are flat JSON objects whose values are
scalars (numbers, booleans, strings, null), which is what `JVal` models.
Python floats are represented by the nonnegative simple decimals actually
occurring here (`1.0`, `3.5`, ...): an integer part and a nonempty list of
fractional decimal digits, rendered exactly as Python `repr` renders such
floats (`1.0`, `3.5`). -/

inductive JVal where
  | jnull : JVal
  | jbool (b : Bool) : JVal
  | jint (n : Int) : JVal
  | jfloat (ip : Nat) (frac : List Nat) : JVal
  | jstr (s : Str) : JVal
deriving DecidableEq

/-- A decoded JSON object (a Python `dict` produced by `json.loads`): its
items in insertion order. Keys of a `dict` are pairwise distinct; claims
that depend on this carry it as an explicit hypothesis. -/
abbrev Payload := List (Str × JVal)

/-- `dict.get`, returning `none` when the key is absent. -/
def getField (p : Payload) (k : Str) : Option JVal :=
  match p with
  | [] => none
  | (k', v) :: rest => if k' = k then some v else getField rest k

/-- Left and right curly bracket characters. -/
def lcurly : Char := Char.ofNat 123

def rcurly : Char := Char.ofNat 125

/-- `\uXXXX` escape with four lowercase hex digits. -/
def uEscape (n : Nat) : Str :=
  '\\' :: 'u' :: [hexDigitChar (n / 4096 % 16), hexDigitChar (n / 256 % 16),
                  hexDigitChar (n / 16 % 16), hexDigitChar (n % 16)]

/-- JSON string escaping as `json.dumps` performs it with its default
`ensure_ascii=True`: short escapes for the usual control characters,
`\uXXXX` (with surrogate pairs beyond the BMP) for everything outside
the printable ASCII range `0x20`..`0x7e`. -/
def escapeChar (c : Char) : Str :=
  if c = '"' then ['\\', '"']
  else if c = '\\' then ['\\', '\\']
  else if c = Char.ofNat 8 then ['\\', 'b']
  else if c = Char.ofNat 12 then ['\\', 'f']
  else if c = '\n' then ['\\', 'n']
  else if c = '\r' then ['\\', 'r']
  else if c = '\t' then ['\\', 't']
  else if c.toNat < 32 then uEscape c.toNat
  else if c.toNat ≤ 126 then [c]
  else if c.toNat < 65536 then uEscape c.toNat
  else uEscape (55296 + (c.toNat - 65536) / 1024) ++
       uEscape (56320 + (c.toNat - 65536) % 1024)

/-- A JSON string literal: quoted and escaped. -/
def dumpStr (s : Str) : Str := '"' :: (s.map escapeChar).flatten ++ ['"']

/-- Decimal rendering of a Python `int`. -/
def intRepr (i : Int) : Str :=
  if i < 0 then '-' :: Nat.toDigits 10 i.natAbs else Nat.toDigits 10 i.natAbs

/-- Serialization of one scalar JSON value, as `json.dumps` renders it. -/
def dumpJVal : JVal → Str
  | .jnull => "null".data
  | .jbool true => "true".data
  | .jbool false => "false".data
  | .jint n => intRepr n
  | .jfloat ip frac => Nat.toDigits 10 ip ++ '.' :: frac.map Nat.digitChar
  | .jstr s => dumpStr s

/-- Code-point-wise lexicographic string comparison (Python `str` `<=`). -/
def strLe : Str → Str → Bool
  | [], _ => true
  | _ :: _, [] => false
  | a :: as, b :: bs =>
    if a.toNat < b.toNat then true
    else if b.toNat < a.toNat then false
    else strLe as bs

/-- Ordering of object items by key, used by `sort_keys=True`. -/
def keyLE (a b : Str × JVal) : Prop := strLe a.1 b.1 = true

instance : DecidableRel keyLE :=
  fun a b => inferInstanceAs (Decidable (strLe a.1 b.1 = true))

/-- The items of a dict sorted by key (`sorted(d.items())` under unique
keys, as `json.dumps(..., sort_keys=True)` iterates them). -/
def sortPayload (p : Payload) : Payload := List.insertionSort keyLE p

/-- Interleave a separator between the strings of a list. -/
def joinSep (sep : Str) : List Str → Str
  | [] => []
  | [x] => x
  | x :: y :: xs => x ++ sep ++ joinSep sep (y :: xs)

/-- One `"key": value` item of an object serialization. -/
def dumpEntry (kv : Str × JVal) : Str :=
  dumpStr kv.1 ++ ':' :: ' ' :: dumpJVal kv.2

/-- `json.dumps(record, sort_keys=True)` for a flat object: items sorted
by key, separated by a comma and a space. -/
def dumpsSorted (p : Payload) : Str :=
  lcurly :: joinSep (',' :: [' ']) ((sortPayload p).map dumpEntry) ++ [rcurly]

/-! ## `data_cleaner.py` -/

/-- `calc_sha256`: the hex digest of the UTF-8 bytes of the sorted-key
JSON serialization of the record. -/
def calc_sha256 (record : Payload) : Str :=
  bytesToHex (sha256 (utf8Encode (dumpsSorted record)))

/-- `MAX_PER_BATCH`. -/
def MAX_PER_BATCH : Nat := 4

/-- One accumulated record, as built in `on_message`: the field values of
the payload plus the derived batch id and the payload's digest, in the
construction order of the Python dict literal. -/
structure Record where
  batch_id : Str
  ts : JVal
  temp : JVal
  hum : JVal
  location : JVal
  productName : JVal
  hash : Str
deriving DecidableEq

/-- `batch_cache`, the `defaultdict(list)`: every key maps to its list of
accumulated records, absent keys to `[]`. -/
abbrev Cache := Str → List Record

def updateCache (c : Cache) (k : Str) (v : List Record) : Cache :=
  fun k' => if k' = k then v else c k'

/-- The per-message acknowledgment sent back to the broker: `basic_ack`,
or `basic_nack(requeue=False)` from the exception handler. -/
inductive Ack where
  | ack : Ack
  | nack : Ack
deriving DecidableEq

/-- One batch file written by `try_flush_batch`: its path and the record
list serialized into it. -/
structure Artifact where
  path : Str
  records : List Record
deriving DecidableEq

/-- The observable outcome of one `on_message` call: the new cache, the
batch files written, and the acknowledgment. -/
structure StepResult where
  cache : Cache
  writes : List Artifact
  ack : Ack

/-- Python `str.split('/')`. -/
def splitSlash : Str → List Str
  | [] => [[]]
  | c :: rest =>
    if c = '/' then [] :: splitSlash rest
    else
      match splitSlash rest with
      | s :: ss => (c :: s) :: ss
      | [] => [[c]]

/-- `f'{batch_id}_{timestamp}.json'`; `now` is the formatted UTC
timestamp string. -/
def fileName (batch_id now : Str) : Str :=
  batch_id ++ '_' :: now ++ ".json".data

/-- The fields of a record dict, in the insertion order of the literal in
`on_message` — the order `json.dump` serializes them with. -/
def recordFields (r : Record) : Payload :=
  [("batch_id".data, .jstr r.batch_id), ("ts".data, r.ts),
   ("temp".data, r.temp), ("hum".data, r.hum),
   ("location".data, r.location), ("productName".data, r.productName),
   ("hash".data, .jstr r.hash)]

/-- Newline plus one 2-space indent level. -/
def nlIndent1 : Str := '\n' :: ' ' :: [' ']

/-- Newline plus two 2-space indent levels. -/
def nlIndent2 : Str := '\n' :: ' ' :: ' ' :: ' ' :: [' ']

/-- One record object as `json.dump(..., indent=2)` renders it, one list
level deep. -/
def dumpRecordIndent (r : Record) : Str :=
  lcurly :: nlIndent2 ++
    joinSep (',' :: nlIndent2) ((recordFields r).map dumpEntry) ++
    nlIndent1 ++ [rcurly]

/-- The bytes-before-encoding of a batch file:
`json.dump(records, f, indent=2)` of the record list. -/
def artifactContent (records : List Record) : Str :=
  match records with
  | [] => '[' :: [']']
  | _ :: _ =>
    '[' :: nlIndent1 ++ joinSep (',' :: nlIndent1) (records.map dumpRecordIndent) ++
      '\n' :: [']']

/-- `try_flush_batch`: when the key's accumulated records have reached
`MAX_PER_BATCH`, write them as one batch file and clear the entry;
otherwise do nothing. -/
def try_flush_batch (now : Str) (c : Cache) (batch_id : Str) :
    Cache × List Artifact :=
  let records := c batch_id
  if MAX_PER_BATCH ≤ records.length then
    (updateCache c batch_id [], [⟨fileName batch_id now, records⟩])
  else (c, [])

def kTemp : Str := "temp".data

def kHum : Str := "hum".data

def kTs : Str := "ts".data

def kLocation : Str := "location".data

def kProductName : Str := "productName".data

/-- `isinstance(x, (int, float))` on an optional JSON value: true for
ints and floats, and also for booleans, since Python `bool` is a subclass
of `int`; false for `None` (absent field) and everything else. -/
def isNumber : Option JVal → Bool
  | some (.jint _) => true
  | some (.jfloat _ _) => true
  | some (.jbool _) => true
  | _ => false

/-- `on_message`, given the decoded payload and routing key: derive the
batch id from the routing key (a failing index raises, reaching the
`basic_nack` handler), acknowledge-and-drop payloads whose `temp` or
`hum` is not numeric, otherwise build the hashed record (a missing `ts`,
`location` or `productName` raises `KeyError`, again reaching the
`basic_nack` handler), append it to the key's cache entry, and flush the
batch if it has reached the threshold. -/
def on_message (now : Str) (cache : Cache) (routing_key : Str)
    (payload : Payload) : StepResult :=
  match (splitSlash routing_key).get? 1 with
  | none => ⟨cache, [], .nack⟩
  | some batch_id =>
    if isNumber (getField payload kTemp) = false then ⟨cache, [], .ack⟩
    else if isNumber (getField payload kHum) = false then ⟨cache, [], .ack⟩
    else
      match getField payload kTs, getField payload kTemp,
            getField payload kHum, getField payload kLocation,
            getField payload kProductName with
      | some ts, some temp, some hum, some location, some productName =>
        let record : Record :=
          ⟨batch_id, ts, temp, hum, location, productName,
           calc_sha256 payload⟩
        let cache1 := updateCache cache batch_id (cache batch_id ++ [record])
        let flushed := try_flush_batch now cache1 batch_id
        ⟨flushed.1, flushed.2, .ack⟩
      | _, _, _, _, _ => ⟨cache, [], .nack⟩

/-- One inbound broker message: delivery time, routing key, decoded body. -/
structure Msg where
  now : Str
  routing_key : Str
  payload : Payload

/-- The cache after consuming a sequence of messages in order. -/
def runMessages (msgs : List Msg) (cache : Cache) : Cache :=
  match msgs with
  | [] => cache
  | m :: rest => runMessages rest (on_message m.now cache m.routing_key m.payload).cache

/-- The cache the process starts with: every key empty. -/
def emptyCache : Cache := fun _ => []

/-! ## `upload_to_ipfs.py`: `compute_merkle_root` -/

/-- Duplicate the last element when the level has odd length
(`current.append(current[-1])`). -/
def padEven (l : List Str) : List Str :=
  if l.length % 2 = 1 then l ++ [l.getLast!] else l

/-- One level of the Merkle loop: decode each adjacent pair of hex
fingerprints, hash the concatenated raw bytes, render as hex. `error`
stands for the `ValueError` of `bytes.fromhex` on a non-hex input and
the `IndexError` of `current[i+1]` on a stray trailing element. -/
def pairHash : List Str → Except Unit (List Str)
  | [] => .ok []
  | a :: b :: rest =>
    match hexToBytes a with
    | none => .error ()
    | some ba =>
      match hexToBytes b with
      | none => .error ()
      | some bb =>
        match pairHash rest with
        | .error e => .error e
        | .ok tl => .ok (bytesToHex (sha256 (ba ++ bb)) :: tl)
  | [_] => .error ()

/-- The `while len(current) > 1` loop of `compute_merkle_root`: pad the
level to even length, combine adjacent pairs, and repeat on the strictly
shorter parent level until one fingerprint remains. -/
def merkleLoop (current : List Str) : Except Unit Str :=
  if h1 : current.length ≤ 1 then
    match current with
    | [] => .error ()
    | h :: _ => .ok h
  else
    match hph : pairHash (padEven current) with
    | .error _ => .error ()
    | .ok next => merkleLoop next
termination_by current.length
decreasing_by
  have hlen : ∀ l out : List Str, pairHash l = Except.ok out →
      l.length = 2 * out.length := by
    intro l
    induction l using pairHash.induct with
    | case1 => intro out h; cases h; rfl
    | case2 a b rest hba =>
      intro out h
      simp only [pairHash, hba] at h
      cases h
    | case3 a b rest ba hba hbb =>
      intro out h
      simp only [pairHash, hba, hbb] at h
      cases h
    | case4 a b rest ba hba bb hbb e hre =>
      intro out h
      simp only [pairHash, hba, hbb, hre] at h
      cases h
    | case5 a b rest ba hba bb hbb tl hre ih =>
      intro out h
      simp only [pairHash, hba, hbb, hre] at h
      cases h
      have hr := ih tl hre
      simp only [List.length_cons]
      omega
    | case6 x => intro out h; simp only [pairHash] at h; cases h
  have h2 := hlen _ _ hph
  have hpad : (padEven current).length = current.length ∨
      (padEven current).length = current.length + 1 := by
    unfold padEven
    by_cases hodd : current.length % 2 = 1 <;> simp [hodd]
  simp only [not_le] at h1
  omega

/-- `compute_merkle_root`: `None` on an empty fingerprint list, otherwise
the result of the pairwise-combination loop. A raised exception
(`ValueError`/`IndexError`) is `error`; a normal return is `ok`. -/
def compute_merkle_root (hash_list : List Str) : Except Unit (Option Str) :=
  match hash_list with
  | [] => .ok none
  | _ :: _ => (merkleLoop hash_list).map some

/-! ## Supporting lemmas: the hex codec and SHA-256 outputs -/

theorem hexDigitVal_hexDigitChar : ∀ n < 16, hexDigitVal (hexDigitChar n) = some n := by
  decide

/-- Decoding is a left inverse of hex rendering on genuine byte strings. -/
theorem hexToBytes_bytesToHex :
    ∀ bs : Bytes, (∀ b ∈ bs, b < 256) → hexToBytes (bytesToHex bs) = some bs := by
  intro bs
  induction bs with
  | nil => intro _; rfl
  | cons b tl ih =>
    intro hb
    have hb0 : b < 256 := hb b (List.mem_cons_self b tl)
    have hhi : hexDigitVal (hexDigitChar (b / 16)) = some (b / 16) :=
      hexDigitVal_hexDigitChar _ (by omega)
    have hlo : hexDigitVal (hexDigitChar (b % 16)) = some (b % 16) :=
      hexDigitVal_hexDigitChar _ (by omega)
    have htl : hexToBytes (bytesToHex tl) = some tl :=
      ih (fun x hx => hb x (List.mem_cons_of_mem b hx))
    simp only [bytesToHex, List.map_cons, List.flatten_cons, List.cons_append,
      List.nil_append] at *
    simp only [hexToBytes, hhi, hlo, htl]
    have : 16 * (b / 16) + b % 16 = b := by omega
    rw [this]

/-- Every byte SHA-256 produces is an actual byte. -/
theorem sha256_byte_lt : ∀ m : Bytes, ∀ b ∈ sha256 m, b < 256 := by
  intro m b hb
  simp only [sha256, List.mem_flatten, List.mem_map] at hb
  obtain ⟨l, ⟨w, _, hw⟩, hbl⟩ := hb
  subst hw
  simp only [wordToBytes, List.mem_cons, List.not_mem_nil, or_false] at hbl
  rcases hbl with h | h | h | h <;> subst h <;> exact Nat.mod_lt _ (by omega)

/-- A rendered SHA-256 digest decodes back to its raw bytes. -/
theorem hexToBytes_digest (m : Bytes) :
    hexToBytes (bytesToHex (sha256 m)) = some (sha256 m) :=
  hexToBytes_bytesToHex _ (sha256_byte_lt m)

/-! ## Supporting lemmas: the Merkle loop -/

theorem pairHash_length : ∀ l out : List Str, pairHash l = Except.ok out →
    l.length = 2 * out.length := by
  intro l
  induction l using pairHash.induct with
  | case1 => intro out h; cases h; rfl
  | case2 a b rest hba =>
    intro out h
    simp only [pairHash, hba] at h
    cases h
  | case3 a b rest ba hba hbb =>
    intro out h
    simp only [pairHash, hba, hbb] at h
    cases h
  | case4 a b rest ba hba bb hbb e hre =>
    intro out h
    simp only [pairHash, hba, hbb, hre] at h
    cases h
  | case5 a b rest ba hba bb hbb tl hre ih =>
    intro out h
    simp only [pairHash, hba, hbb, hre] at h
    cases h
    have hr := ih tl hre
    simp only [List.length_cons]
    omega
  | case6 x => intro out h; simp only [pairHash] at h; cases h

/-- On an even-length list of decodable fingerprints the pairing level
succeeds, halves the length, and emits decodable fingerprints. -/
theorem pairHash_ok : ∀ l : List Str, l.length % 2 = 0 →
    (∀ s ∈ l, (hexToBytes s).isSome) →
    ∃ out, pairHash l = Except.ok out ∧ 2 * out.length = l.length ∧
      ∀ s ∈ out, (hexToBytes s).isSome := by
  intro l
  induction l using pairHash.induct with
  | case1 => intro _ _; exact ⟨[], rfl, rfl, by simp⟩
  | case2 a b rest hba =>
    intro _ hv
    have := hv a (by simp)
    rw [hba] at this
    cases this
  | case3 a b rest ba hba hbb =>
    intro _ hv
    have := hv b (by simp)
    rw [hbb] at this
    cases this
  | case4 a b rest ba hba bb hbb e hre ih =>
    intro hev hv
    have hrev : rest.length % 2 = 0 := by
      simp only [List.length_cons] at hev
      omega
    obtain ⟨out, hout, -⟩ :=
      ih hrev (fun s hs => hv s (by simp [hs]))
    rw [hre] at hout
    cases hout
  | case5 a b rest ba hba bb hbb tl hre ih =>
    intro hev hv
    have hrev : rest.length % 2 = 0 := by
      simp only [List.length_cons] at hev
      omega
    obtain ⟨out, hout, hlen, hval⟩ :=
      ih hrev (fun s hs => hv s (by simp [hs]))
    rw [hre] at hout
    cases hout
    refine ⟨bytesToHex (sha256 (ba ++ bb)) :: tl, ?_, ?_, ?_⟩
    · simp only [pairHash, hba, hbb, hre]
    · simp only [List.length_cons]; omega
    · intro s hs
      rcases List.mem_cons.mp hs with h | h
      · subst h
        rw [hexToBytes_digest]
        rfl
      · exact hval s h
  | case6 x =>
    intro hev _
    simp at hev

theorem merkleLoop_single (h : Str) : merkleLoop [h] = Except.ok h := by
  rw [merkleLoop]
  rfl

/-- One iteration of the `while` loop. -/
theorem merkleLoop_step (current next : List Str) (h2 : 2 ≤ current.length)
    (hph : pairHash (padEven current) = Except.ok next) :
    merkleLoop current = merkleLoop next := by
  rw [merkleLoop]
  rw [dif_neg (by omega)]
  split
  · rename_i heq
    rw [hph] at heq
    cases heq
  · rename_i next' heq
    rw [hph] at heq
    cases heq
    rfl

theorem padEven_length_even (l : List Str) : (padEven l).length % 2 = 0 := by
  unfold padEven
  by_cases h : l.length % 2 = 1 <;> simp [h] <;> omega

theorem padEven_length_le (l : List Str) : (padEven l).length ≤ l.length + 1 := by
  unfold padEven
  by_cases h : l.length % 2 = 1 <;> simp [h]

theorem padEven_length_ge (l : List Str) : l.length ≤ (padEven l).length := by
  unfold padEven
  by_cases h : l.length % 2 = 1 <;> simp [h]

theorem getLast!_mem : ∀ l : List Str, l ≠ [] → l.getLast! ∈ l := by
  intro l
  induction l with
  | nil => intro h; cases h rfl
  | cons a tl ih =>
    intro _
    cases tl with
    | nil => simp [List.getLast!]
    | cons b rest =>
      have := ih (by simp)
      have hx : (a :: b :: rest).getLast! = (b :: rest).getLast! := by
        simp [List.getLast!, List.getLast]
      rw [hx]
      exact List.mem_cons_of_mem a this

theorem padEven_mem (l : List Str) (hne : l ≠ []) :
    ∀ s ∈ padEven l, s ∈ l := by
  intro s hs
  unfold padEven at hs
  by_cases h : l.length % 2 = 1
  · rw [if_pos h] at hs
    rcases List.mem_append.mp hs with h1 | h1
    · exact h1
    · simp only [List.mem_singleton] at h1
      subst h1
      exact getLast!_mem l hne
  · rwa [if_neg h] at hs

/-- The loop yields a single root on every nonempty list of decodable
fingerprints. -/
theorem merkleLoop_ok : ∀ n, ∀ l : List Str, l.length ≤ n → l ≠ [] →
    (∀ s ∈ l, (hexToBytes s).isSome) → ∃ r, merkleLoop l = Except.ok r := by
  intro n
  induction n with
  | zero =>
    intro l hl hne _
    cases l with
    | nil => cases hne rfl
    | cons a tl => simp at hl
  | succ n ih =>
    intro l hl hne hv
    by_cases h1 : l.length ≤ 1
    · cases l with
      | nil => cases hne rfl
      | cons a tl =>
        cases tl with
        | nil => exact ⟨a, merkleLoop_single a⟩
        | cons b rest => simp at h1
    · have h2 : 2 ≤ l.length := by omega
      obtain ⟨next, hnext, hlen, hval⟩ :=
        pairHash_ok (padEven l) (padEven_length_even l)
          (fun s hs => hv s (padEven_mem l hne s hs))
      have hle : (padEven l).length ≤ l.length + 1 := padEven_length_le l
      have hge : l.length ≤ (padEven l).length := padEven_length_ge l
      have hnext_lt : next.length < l.length := by omega
      have hnext_ne : next ≠ [] := by
        intro hemp
        subst hemp
        simp at hlen
        omega
      obtain ⟨r, hr⟩ := ih next (by omega) hnext_ne hval
      exact ⟨r, (merkleLoop_step l next h2 hnext).trans hr⟩

/-! ## Supporting lemmas: the key order and `sort_keys` canonicalization -/

theorem strLe_total : ∀ a b : Str, strLe a b = true ∨ strLe b a = true := by
  intro a
  induction a with
  | nil => intro b; left; rfl
  | cons c cs ih =>
    intro b
    cases b with
    | nil => right; rfl
    | cons d ds =>
      by_cases h1 : c.toNat < d.toNat
      · left; simp [strLe, h1]
      · by_cases h2 : d.toNat < c.toNat
        · right; simp [strLe, h2]
        · rcases ih ds with h | h
          · left; simp [strLe, h1, h2, h]
          · right; simp [strLe, h1, h2, h]

theorem strLe_trans : ∀ a b c : Str, strLe a b = true → strLe b c = true →
    strLe a c = true := by
  intro a
  induction a with
  | nil => intro b c _ _; rfl
  | cons x xs ih =>
    intro b c hab hbc
    cases b with
    | nil => simp [strLe] at hab
    | cons y ys =>
      cases c with
      | nil => simp [strLe] at hbc
      | cons z zs =>
        simp only [strLe] at hab hbc ⊢
        by_cases hzy : z.toNat < y.toNat
        · by_cases hyz : y.toNat < z.toNat
          · omega
          · simp [hyz, hzy] at hbc
        · by_cases hyx : y.toNat < x.toNat
          · by_cases hxy : x.toNat < y.toNat
            · omega
            · simp [hxy, hyx] at hab
          · by_cases hxy : x.toNat < y.toNat
            · have hxz : x.toNat < z.toNat := by omega
              simp [hxz]
            · by_cases hyz : y.toNat < z.toNat
              · have hxz : x.toNat < z.toNat := by omega
                simp [hxz]
              · have hxz1 : ¬ x.toNat < z.toNat := by omega
                have hxz2 : ¬ z.toNat < x.toNat := by omega
                simp only [hxy, hyx, if_neg, ite_false] at hab
                simp only [hyz, hzy, if_neg, ite_false] at hbc
                simp only [hxz1, hxz2, if_neg, ite_false]
                exact ih ys zs (by simpa [hxy, hyx] using hab)
                  (by simpa [hyz, hzy] using hbc)

theorem char_toNat_inj (a b : Char) (h : a.toNat = b.toNat) : a = b := by
  rw [← Char.ofNat_toNat a, ← Char.ofNat_toNat b, h]

theorem strLe_antisymm : ∀ a b : Str, strLe a b = true → strLe b a = true →
    a = b := by
  intro a
  induction a with
  | nil =>
    intro b _ hba
    cases b with
    | nil => rfl
    | cons d ds => simp [strLe] at hba
  | cons x xs ih =>
    intro b hab hba
    cases b with
    | nil => simp [strLe] at hab
    | cons y ys =>
      simp only [strLe] at hab hba
      by_cases h1 : x.toNat < y.toNat
      · simp [h1, Nat.lt_asymm h1] at hba
      · by_cases h2 : y.toNat < x.toNat
        · simp [h1, h2] at hab
        · have hxy : x = y := char_toNat_inj x y (by omega)
          subst hxy
          simp only [h1, if_neg, ite_self] at hab hba
          rw [ih ys (by simpa [h1] using hab) (by simpa [h1] using hba)]

instance : IsTotal (Str × JVal) keyLE := ⟨fun a b => strLe_total a.1 b.1⟩

instance : IsTrans (Str × JVal) keyLE :=
  ⟨fun a b c hab hbc => strLe_trans a.1 b.1 c.1 hab hbc⟩

/-- Two sorted item lists that are permutations of each other and have
pairwise-distinct keys are equal: sorting by key is canonical on dicts. -/
theorem sorted_perm_nodupKeys_eq :
    ∀ l1 l2 : Payload, l1.Perm l2 → l1.Sorted keyLE → l2.Sorted keyLE →
      (l1.map Prod.fst).Nodup → l1 = l2 := by
  intro l1
  induction l1 with
  | nil =>
    intro l2 hperm _ _ _
    exact (hperm.nil_eq).symm ▸ rfl
  | cons x xs ih =>
    intro l2 hperm h1 h2 hnd
    cases l2 with
    | nil => cases hperm.symm.nil_eq
    | cons y ys =>
      have hxy : x = y := by
        have hxmem : x ∈ y :: ys := hperm.mem_iff.mp (List.mem_cons_self x xs)
        have hymem : y ∈ x :: xs := hperm.mem_iff.mpr (List.mem_cons_self y ys)
        rcases List.mem_cons.mp hxmem with h | hxys
        · exact h
        · rcases List.mem_cons.mp hymem with h | hyxs
          · exact h.symm
          · exfalso
            have hk1 : keyLE y x := List.rel_of_sorted_cons h2 x hxys
            have hk2 : keyLE x y := List.rel_of_sorted_cons h1 y hyxs
            have hkeq : x.1 = y.1 := strLe_antisymm x.1 y.1 hk2 hk1
            have : x.1 ∈ xs.map Prod.fst :=
              hkeq ▸ List.mem_map_of_mem Prod.fst hyxs
            exact (List.nodup_cons.mp hnd).1 this
      subst hxy
      have htl := hperm.cons_inv
      rw [ih ys htl h1.of_cons h2.of_cons (List.nodup_cons.mp hnd).2]

/-- Under distinct keys, the `sort_keys=True` item order depends only on
the key-value set, not on the transport order of the fields. -/
theorem sortPayload_eq_of_perm (p1 p2 : Payload) (hperm : p1.Perm p2)
    (hnd : (p1.map Prod.fst).Nodup) : sortPayload p1 = sortPayload p2 := by
  apply sorted_perm_nodupKeys_eq
  · exact (List.perm_insertionSort keyLE p1).trans
      (hperm.trans (List.perm_insertionSort keyLE p2).symm)
  · exact List.sorted_insertionSort keyLE p1
  · exact List.sorted_insertionSort keyLE p2
  · exact ((List.perm_insertionSort keyLE p1).map Prod.fst).nodup_iff.mpr hnd

theorem calc_sha256_perm (p1 p2 : Payload) (hperm : p1.Perm p2)
    (hnd : (p1.map Prod.fst).Nodup) : calc_sha256 p1 = calc_sha256 p2 := by
  unfold calc_sha256 dumpsSorted
  rw [sortPayload_eq_of_perm p1 p2 hperm hnd]

/-! ## Supporting lemmas: `on_message` -/

/-- What `on_message` does to a well-formed event: build the hashed
record, append it to the key's entry, and flush exactly when the entry
reaches `MAX_PER_BATCH`. -/
theorem on_message_valid (now : Str) (cache : Cache) (rk k : Str) (p : Payload)
    (ts temp hum loc pn : JVal)
    (hk : (splitSlash rk).get? 1 = some k)
    (hts : getField p kTs = some ts)
    (htemp : getField p kTemp = some temp)
    (hhum : getField p kHum = some hum)
    (hloc : getField p kLocation = some loc)
    (hpn : getField p kProductName = some pn)
    (hnt : isNumber (some temp) = true)
    (hnh : isNumber (some hum) = true) :
    on_message now cache rk p =
      if MAX_PER_BATCH ≤ (cache k).length + 1 then
        ⟨updateCache
          (updateCache cache k
            (cache k ++ [⟨k, ts, temp, hum, loc, pn, calc_sha256 p⟩])) k [],
         [⟨fileName k now,
           cache k ++ [⟨k, ts, temp, hum, loc, pn, calc_sha256 p⟩]⟩], .ack⟩
      else
        ⟨updateCache cache k
          (cache k ++ [⟨k, ts, temp, hum, loc, pn, calc_sha256 p⟩]), [], .ack⟩ := by
  unfold on_message
  rw [hk]
  simp only [htemp, hhum, hnt, hts, hloc, hpn, hnh, Bool.true_eq_false,
    if_false, ite_false]
  unfold try_flush_batch updateCache
  by_cases hth : MAX_PER_BATCH ≤ (cache k).length + 1
  · simp [hth]
  · simp [hth]

/-- `on_message` on a well-formed event below the threshold: append only. -/
theorem on_message_valid_noflush (now : Str) (cache : Cache) (rk k : Str)
    (p : Payload) (ts temp hum loc pn : JVal) (v : List Record)
    (hk : (splitSlash rk).get? 1 = some k)
    (hts : getField p kTs = some ts)
    (htemp : getField p kTemp = some temp)
    (hhum : getField p kHum = some hum)
    (hloc : getField p kLocation = some loc)
    (hpn : getField p kProductName = some pn)
    (hnt : isNumber (some temp) = true)
    (hnh : isNumber (some hum) = true)
    (hv : cache k = v) (hsmall : v.length + 1 < MAX_PER_BATCH) :
    on_message now cache rk p =
      ⟨updateCache cache k
        (v ++ [⟨k, ts, temp, hum, loc, pn, calc_sha256 p⟩]), [], .ack⟩ := by
  rw [on_message_valid now cache rk k p ts temp hum loc pn hk hts htemp hhum
    hloc hpn hnt hnh]
  rw [hv, if_neg (by omega)]

/-- `on_message` on the well-formed event that reaches the threshold:
append, write one batch file, clear the entry. -/
theorem on_message_valid_flush (now : Str) (cache : Cache) (rk k : Str)
    (p : Payload) (ts temp hum loc pn : JVal) (v : List Record)
    (hk : (splitSlash rk).get? 1 = some k)
    (hts : getField p kTs = some ts)
    (htemp : getField p kTemp = some temp)
    (hhum : getField p kHum = some hum)
    (hloc : getField p kLocation = some loc)
    (hpn : getField p kProductName = some pn)
    (hnt : isNumber (some temp) = true)
    (hnh : isNumber (some hum) = true)
    (hv : cache k = v) (hbig : MAX_PER_BATCH ≤ v.length + 1) :
    on_message now cache rk p =
      ⟨updateCache
        (updateCache cache k
          (v ++ [⟨k, ts, temp, hum, loc, pn, calc_sha256 p⟩])) k [],
       [⟨fileName k now, v ++ [⟨k, ts, temp, hum, loc, pn, calc_sha256 p⟩]⟩],
       .ack⟩ := by
  rw [on_message_valid now cache rk k p ts temp hum loc pn hk hts htemp hhum
    hloc hpn hnt hnh]
  rw [hv, if_pos (by omega)]

/-- What `on_message` does to a malformed event: the cache is untouched,
nothing is written, and the acknowledgment is `ack` when the `temp`/`hum`
type check rejects the event but `nack` when the event passes that check
and then raises a `KeyError` on a missing `ts`, `location` or
`productName`. -/
theorem on_message_malformed (now : Str) (cache : Cache) (rk k : Str)
    (p : Payload) (hk : (splitSlash rk).get? 1 = some k)
    (hmal : ¬ (isNumber (getField p kTemp) = true ∧
               isNumber (getField p kHum) = true ∧
               (getField p kTs).isSome = true ∧
               (getField p kLocation).isSome = true ∧
               (getField p kProductName).isSome = true)) :
    on_message now cache rk p =
      ⟨cache, [],
       if isNumber (getField p kTemp) && isNumber (getField p kHum) then
         Ack.nack
       else Ack.ack⟩ := by
  unfold on_message
  rw [hk]
  cases h1 : isNumber (getField p kTemp) with
  | false => simp [h1]
  | true =>
    cases h2 : isNumber (getField p kHum) with
    | false => simp [h1, h2]
    | true =>
      simp only [h1, h2, Bool.true_eq_false, if_false, ite_false,
        Bool.and_self, if_true, ite_true]
      cases hts : getField p kTs with
      | none => simp
      | some ts =>
        cases htemp : getField p kTemp with
        | none => simp [isNumber, htemp] at h1
        | some temp =>
          cases hhum : getField p kHum with
          | none => simp [isNumber, hhum] at h2
          | some hum =>
            cases hloc : getField p kLocation with
            | none => simp
            | some loc =>
              cases hpn : getField p kProductName with
              | none => simp
              | some pn =>
                exact absurd
                  ⟨h1, h2, by simp [hts], by simp [hloc], by simp [hpn]⟩ hmal

/-- `on_message` never grows a key's entry to `MAX_PER_BATCH` or beyond:
the bound `< MAX_PER_BATCH` on every entry is preserved by each step. -/
theorem on_message_preserves_bound (now : Str) (cache : Cache) (rk : Str)
    (p : Payload) (hinv : ∀ k, (cache k).length < MAX_PER_BATCH) :
    ∀ k, ((on_message now cache rk p).cache k).length < MAX_PER_BATCH := by
  intro k
  unfold on_message
  cases hsp : (splitSlash rk).get? 1 with
  | none => exact hinv k
  | some bid =>
    by_cases h1 : isNumber (getField p kTemp) = false
    · simp only [h1, if_true]
      exact hinv k
    · simp only [h1, if_false]
      by_cases h2 : isNumber (getField p kHum) = false
      · simp only [h2, if_true]
        exact hinv k
      · simp only [h2, if_false]
        cases hts : getField p kTs with
        | none => simp only; exact hinv k
        | some ts =>
          cases htemp : getField p kTemp with
          | none => simp only; exact hinv k
          | some temp =>
            cases hhum : getField p kHum with
            | none => simp only; exact hinv k
            | some hum =>
              cases hloc : getField p kLocation with
              | none => simp only; exact hinv k
              | some loc =>
                cases hpn : getField p kProductName with
                | none => simp only; exact hinv k
                | some pn =>
                  simp only
                  unfold try_flush_batch updateCache
                  by_cases hkb : k = bid
                  · subst hkb
                    by_cases hth : 3 ≤ (cache k).length
                    · simp [hth, MAX_PER_BATCH]
                    · simp [hth, MAX_PER_BATCH]
                      omega
                  · by_cases hth : 3 ≤ (cache bid).length
                    · simp [hth, MAX_PER_BATCH, hkb]
                      exact hinv k
                    · simp [hth, MAX_PER_BATCH, hkb]
                      exact hinv k

/-! ## The claims -/

/-- C1: for every list of exactly four fingerprints `[h1, h2, h3, h4]`
(hex strings decoding to raw digest bytes `b1..b4`), the Merkle
aggregator returns `sha256(sha256(b1 ++ b2) ++ sha256(b3 ++ b4))` —
concatenation of the raw digest bytes decoded from hex, hashed, and the
result rendered as a hex digest: the pairwise level-by-level combination
specialized to four elements. -/
theorem merkle_root_of_four (h1 h2 h3 h4 : Str) (b1 b2 b3 b4 : Bytes)
    (e1 : hexToBytes h1 = some b1) (e2 : hexToBytes h2 = some b2)
    (e3 : hexToBytes h3 = some b3) (e4 : hexToBytes h4 = some b4) :
    compute_merkle_root [h1, h2, h3, h4] =
      Except.ok (some (bytesToHex
        (sha256 (sha256 (b1 ++ b2) ++ sha256 (b3 ++ b4))))) := by
  have hp1 : pairHash (padEven [h1, h2, h3, h4]) =
      Except.ok [bytesToHex (sha256 (b1 ++ b2)),
                 bytesToHex (sha256 (b3 ++ b4))] := by
    simp [padEven, pairHash, e1, e2, e3, e4]
  have hp2 : pairHash (padEven [bytesToHex (sha256 (b1 ++ b2)),
      bytesToHex (sha256 (b3 ++ b4))]) =
      Except.ok [bytesToHex
        (sha256 (sha256 (b1 ++ b2) ++ sha256 (b3 ++ b4)))] := by
    simp [padEven, pairHash, hexToBytes_digest]
  show (merkleLoop [h1, h2, h3, h4]).map some =
    Except.ok (some (bytesToHex
      (sha256 (sha256 (b1 ++ b2) ++ sha256 (b3 ++ b4)))))
  rw [merkleLoop_step _ _ (by simp) hp1,
      merkleLoop_step _ _ (by simp) hp2,
      merkleLoop_single]
  rfl

/-- Witness for C1 at four concrete fingerprints. -/
theorem merkle_root_of_four_w :
    compute_merkle_root ["00".data, "01".data, "0a".data, "ff".data] =
      Except.ok (some (bytesToHex
        (sha256 (sha256 ([0] ++ [1]) ++ sha256 ([10] ++ [255]))))) :=
  merkle_root_of_four "00".data "01".data "0a".data "ff".data
    [0] [1] [10] [255] (by decide) (by decide) (by decide) (by decide)

set_option maxRecDepth 100000 in
/-- C2 counterexample: two events whose temperatures are numerically
equal but differently formatted — JSON `1.0` against JSON `1` — produce
different fingerprints: no scaled-integer canonicalization is applied
before hashing. -/
theorem fingerprint_differs_float_vs_int :
    calc_sha256
        [("temp".data, JVal.jfloat 1 [0]), ("hum".data, JVal.jint 2),
         ("ts".data, JVal.jint 100), ("location".data, JVal.jstr "x".data),
         ("productName".data, JVal.jstr "y".data)] ≠
      calc_sha256
        [("temp".data, JVal.jint 1), ("hum".data, JVal.jint 2),
         ("ts".data, JVal.jint 100), ("location".data, JVal.jstr "x".data),
         ("productName".data, JVal.jstr "y".data)] := by
  decide

set_option maxRecDepth 100000 in
/-- C2 (amended): the per-event fingerprint is computed over the
sorted-key JSON serialization of the raw payload, so it is invariant
under field reordering, but values are hashed exactly as formatted on
the wire: no scaling of `temp`/`hum` to integers and no timestamp
normalization happens, and JSON `1.0` hashes differently from JSON `1`. -/
theorem fingerprint_raw_sorted_json :
    (calc_sha256
        [("hum".data, JVal.jint 2), ("temp".data, JVal.jint 1),
         ("ts".data, JVal.jint 100), ("location".data, JVal.jstr "x".data),
         ("productName".data, JVal.jstr "y".data)] =
      calc_sha256
        [("temp".data, JVal.jint 1), ("hum".data, JVal.jint 2),
         ("ts".data, JVal.jint 100), ("location".data, JVal.jstr "x".data),
         ("productName".data, JVal.jstr "y".data)]) ∧
    (calc_sha256
        [("temp".data, JVal.jfloat 1 [0]), ("hum".data, JVal.jint 2),
         ("ts".data, JVal.jint 100), ("location".data, JVal.jstr "x".data),
         ("productName".data, JVal.jstr "y".data)] ≠
      calc_sha256
        [("temp".data, JVal.jint 1), ("hum".data, JVal.jint 2),
         ("ts".data, JVal.jint 100), ("location".data, JVal.jstr "x".data),
         ("productName".data, JVal.jstr "y".data)]) := by
  constructor
  · decide
  · decide

/-- C3: with flush threshold `MAX_PER_BATCH = 4`, four valid arrivals
for one key starting from an empty entry behave as the spec states:
arrivals 1–3 write nothing and accumulate in arrival order, the 4th
arrival writes exactly one artifact holding exactly those four records
in arrival order and clears the entry, and a 5th valid arrival is
appended to an empty accumulated history. -/
theorem seal_exactly_at_threshold
    (rk k : Str) (st0 : Cache) (n1 n2 n3 n4 n5 : Str)
    (p1 p2 p3 p4 p5 : Payload)
    (ts1 t1 u1 l1 q1 ts2 t2 u2 l2 q2 ts3 t3 u3 l3 q3 : JVal)
    (ts4 t4 u4 l4 q4 ts5 t5 u5 l5 q5 : JVal)
    (hk : (splitSlash rk).get? 1 = some k)
    (h0 : st0 k = [])
    (hts1 : getField p1 kTs = some ts1)
    (htp1 : getField p1 kTemp = some t1)
    (hhu1 : getField p1 kHum = some u1)
    (hlo1 : getField p1 kLocation = some l1)
    (hpr1 : getField p1 kProductName = some q1)
    (hnt1 : isNumber (some t1) = true)
    (hnh1 : isNumber (some u1) = true)
    (hts2 : getField p2 kTs = some ts2)
    (htp2 : getField p2 kTemp = some t2)
    (hhu2 : getField p2 kHum = some u2)
    (hlo2 : getField p2 kLocation = some l2)
    (hpr2 : getField p2 kProductName = some q2)
    (hnt2 : isNumber (some t2) = true)
    (hnh2 : isNumber (some u2) = true)
    (hts3 : getField p3 kTs = some ts3)
    (htp3 : getField p3 kTemp = some t3)
    (hhu3 : getField p3 kHum = some u3)
    (hlo3 : getField p3 kLocation = some l3)
    (hpr3 : getField p3 kProductName = some q3)
    (hnt3 : isNumber (some t3) = true)
    (hnh3 : isNumber (some u3) = true)
    (hts4 : getField p4 kTs = some ts4)
    (htp4 : getField p4 kTemp = some t4)
    (hhu4 : getField p4 kHum = some u4)
    (hlo4 : getField p4 kLocation = some l4)
    (hpr4 : getField p4 kProductName = some q4)
    (hnt4 : isNumber (some t4) = true)
    (hnh4 : isNumber (some u4) = true)
    (hts5 : getField p5 kTs = some ts5)
    (htp5 : getField p5 kTemp = some t5)
    (hhu5 : getField p5 kHum = some u5)
    (hlo5 : getField p5 kLocation = some l5)
    (hpr5 : getField p5 kProductName = some q5)
    (hnt5 : isNumber (some t5) = true)
    (hnh5 : isNumber (some u5) = true)
    :
    (on_message n1 st0 rk p1).writes = [] ∧
    (on_message n1 st0 rk p1).cache k = [⟨k, ts1, t1, u1, l1, q1, calc_sha256 p1⟩] ∧
    (on_message n2 (on_message n1 st0 rk p1).cache rk p2).writes = [] ∧
    (on_message n2 (on_message n1 st0 rk p1).cache rk p2).cache k = [⟨k, ts1, t1, u1, l1, q1, calc_sha256 p1⟩, ⟨k, ts2, t2, u2, l2, q2, calc_sha256 p2⟩] ∧
    (on_message n3 (on_message n2 (on_message n1 st0 rk p1).cache rk p2).cache rk p3).writes = [] ∧
    (on_message n3 (on_message n2 (on_message n1 st0 rk p1).cache rk p2).cache rk p3).cache k = [⟨k, ts1, t1, u1, l1, q1, calc_sha256 p1⟩, ⟨k, ts2, t2, u2, l2, q2, calc_sha256 p2⟩, ⟨k, ts3, t3, u3, l3, q3, calc_sha256 p3⟩] ∧
    (on_message n4 (on_message n3 (on_message n2 (on_message n1 st0 rk p1).cache rk p2).cache rk p3).cache rk p4).writes =
      [⟨fileName k n4, [⟨k, ts1, t1, u1, l1, q1, calc_sha256 p1⟩, ⟨k, ts2, t2, u2, l2, q2, calc_sha256 p2⟩, ⟨k, ts3, t3, u3, l3, q3, calc_sha256 p3⟩, ⟨k, ts4, t4, u4, l4, q4, calc_sha256 p4⟩]⟩] ∧
    (on_message n4 (on_message n3 (on_message n2 (on_message n1 st0 rk p1).cache rk p2).cache rk p3).cache rk p4).cache k = [] ∧
    (on_message n5 (on_message n4 (on_message n3 (on_message n2 (on_message n1 st0 rk p1).cache rk p2).cache rk p3).cache rk p4).cache rk p5).writes = [] ∧
    (on_message n5 (on_message n4 (on_message n3 (on_message n2 (on_message n1 st0 rk p1).cache rk p2).cache rk p3).cache rk p4).cache rk p5).cache k = [⟨k, ts5, t5, u5, l5, q5, calc_sha256 p5⟩] := by
  have e1 := on_message_valid_noflush n1 st0 rk k p1 ts1 t1 u1 l1 q1 []
    hk hts1 htp1 hhu1 hlo1 hpr1 hnt1 hnh1 h0 (by simp [MAX_PER_BATCH])
  have k1 : (on_message n1 st0 rk p1).cache k = [⟨k, ts1, t1, u1, l1, q1, calc_sha256 p1⟩] := by
    rw [e1]; simp [updateCache]
  have e2 := on_message_valid_noflush n2 (on_message n1 st0 rk p1).cache rk k p2 ts2 t2 u2 l2 q2
    [⟨k, ts1, t1, u1, l1, q1, calc_sha256 p1⟩] hk hts2 htp2 hhu2 hlo2 hpr2 hnt2 hnh2 k1 (by simp [MAX_PER_BATCH])
  have k2 : (on_message n2 (on_message n1 st0 rk p1).cache rk p2).cache k = [⟨k, ts1, t1, u1, l1, q1, calc_sha256 p1⟩, ⟨k, ts2, t2, u2, l2, q2, calc_sha256 p2⟩] := by
    rw [e2]; simp [updateCache]
  have e3 := on_message_valid_noflush n3 (on_message n2 (on_message n1 st0 rk p1).cache rk p2).cache rk k p3 ts3 t3 u3 l3 q3
    [⟨k, ts1, t1, u1, l1, q1, calc_sha256 p1⟩, ⟨k, ts2, t2, u2, l2, q2, calc_sha256 p2⟩] hk hts3 htp3 hhu3 hlo3 hpr3 hnt3 hnh3 k2 (by simp [MAX_PER_BATCH])
  have k3 : (on_message n3 (on_message n2 (on_message n1 st0 rk p1).cache rk p2).cache rk p3).cache k = [⟨k, ts1, t1, u1, l1, q1, calc_sha256 p1⟩, ⟨k, ts2, t2, u2, l2, q2, calc_sha256 p2⟩, ⟨k, ts3, t3, u3, l3, q3, calc_sha256 p3⟩] := by
    rw [e3]; simp [updateCache]
  have e4 := on_message_valid_flush n4 (on_message n3 (on_message n2 (on_message n1 st0 rk p1).cache rk p2).cache rk p3).cache rk k p4 ts4 t4 u4 l4 q4
    [⟨k, ts1, t1, u1, l1, q1, calc_sha256 p1⟩, ⟨k, ts2, t2, u2, l2, q2, calc_sha256 p2⟩, ⟨k, ts3, t3, u3, l3, q3, calc_sha256 p3⟩] hk hts4 htp4 hhu4 hlo4 hpr4 hnt4 hnh4 k3 (by simp [MAX_PER_BATCH])
  have k4 : (on_message n4 (on_message n3 (on_message n2 (on_message n1 st0 rk p1).cache rk p2).cache rk p3).cache rk p4).cache k = [] := by
    rw [e4]; simp [updateCache]
  have e5 := on_message_valid_noflush n5 (on_message n4 (on_message n3 (on_message n2 (on_message n1 st0 rk p1).cache rk p2).cache rk p3).cache rk p4).cache rk k p5 ts5 t5 u5 l5 q5 []
    hk hts5 htp5 hhu5 hlo5 hpr5 hnt5 hnh5 k4 (by simp [MAX_PER_BATCH])
  have k5 : (on_message n5 (on_message n4 (on_message n3 (on_message n2 (on_message n1 st0 rk p1).cache rk p2).cache rk p3).cache rk p4).cache rk p5).cache k = [⟨k, ts5, t5, u5, l5, q5, calc_sha256 p5⟩] := by
    rw [e5]; simp [updateCache]
  refine ⟨by rw [e1], k1, by rw [e2], k2, by rw [e3], k3, ?_, k4, by rw [e5], k5⟩
  rw [e4]
  simp

/-- Witness for C3: the four-event `batch321` scenario (temperatures
1.0, 2.0, 3.5, 4.0) followed by a fifth arrival. -/
theorem seal_exactly_at_threshold_w :
    (on_message "t1".data emptyCache "coldchain/batch321/sensor".data
      [("ts".data, JVal.jint 1), ("temp".data, JVal.jfloat 1 [0]),
       ("hum".data, JVal.jint 50), ("location".data, JVal.jstr "syd".data),
       ("productName".data, JVal.jstr "beef".data)]).writes = [] ∧
    (on_message "t1".data emptyCache "coldchain/batch321/sensor".data
      [("ts".data, JVal.jint 1), ("temp".data, JVal.jfloat 1 [0]),
       ("hum".data, JVal.jint 50), ("location".data, JVal.jstr "syd".data),
       ("productName".data, JVal.jstr "beef".data)]).cache "batch321".data =
      [⟨"batch321".data, JVal.jint 1, JVal.jfloat 1 [0], JVal.jint 50,
       JVal.jstr "syd".data, JVal.jstr "beef".data,
       calc_sha256
         [("ts".data, JVal.jint 1), ("temp".data, JVal.jfloat 1 [0]),
          ("hum".data, JVal.jint 50), ("location".data, JVal.jstr "syd".data),
          ("productName".data, JVal.jstr "beef".data)]⟩] ∧
    (on_message "t2".data (on_message "t1".data emptyCache "coldchain/batch321/sensor".data
      [("ts".data, JVal.jint 1), ("temp".data, JVal.jfloat 1 [0]),
       ("hum".data, JVal.jint 50), ("location".data, JVal.jstr "syd".data),
       ("productName".data, JVal.jstr "beef".data)]).cache "coldchain/batch321/sensor".data
      [("ts".data, JVal.jint 2), ("temp".data, JVal.jfloat 2 [0]),
       ("hum".data, JVal.jint 50), ("location".data, JVal.jstr "syd".data),
       ("productName".data, JVal.jstr "beef".data)]).writes = [] ∧
    (on_message "t2".data (on_message "t1".data emptyCache "coldchain/batch321/sensor".data
      [("ts".data, JVal.jint 1), ("temp".data, JVal.jfloat 1 [0]),
       ("hum".data, JVal.jint 50), ("location".data, JVal.jstr "syd".data),
       ("productName".data, JVal.jstr "beef".data)]).cache "coldchain/batch321/sensor".data
      [("ts".data, JVal.jint 2), ("temp".data, JVal.jfloat 2 [0]),
       ("hum".data, JVal.jint 50), ("location".data, JVal.jstr "syd".data),
       ("productName".data, JVal.jstr "beef".data)]).cache "batch321".data =
      [⟨"batch321".data, JVal.jint 1, JVal.jfloat 1 [0], JVal.jint 50,
       JVal.jstr "syd".data, JVal.jstr "beef".data,
       calc_sha256
         [("ts".data, JVal.jint 1), ("temp".data, JVal.jfloat 1 [0]),
          ("hum".data, JVal.jint 50), ("location".data, JVal.jstr "syd".data),
          ("productName".data, JVal.jstr "beef".data)]⟩,
       ⟨"batch321".data, JVal.jint 2, JVal.jfloat 2 [0], JVal.jint 50,
        JVal.jstr "syd".data, JVal.jstr "beef".data,
        calc_sha256
          [("ts".data, JVal.jint 2), ("temp".data, JVal.jfloat 2 [0]),
           ("hum".data, JVal.jint 50), ("location".data, JVal.jstr "syd".data),
           ("productName".data, JVal.jstr "beef".data)]⟩] ∧
    (on_message "t3".data (on_message "t2".data (on_message "t1".data emptyCache "coldchain/batch321/sensor".data
      [("ts".data, JVal.jint 1), ("temp".data, JVal.jfloat 1 [0]),
       ("hum".data, JVal.jint 50), ("location".data, JVal.jstr "syd".data),
       ("productName".data, JVal.jstr "beef".data)]).cache "coldchain/batch321/sensor".data
      [("ts".data, JVal.jint 2), ("temp".data, JVal.jfloat 2 [0]),
       ("hum".data, JVal.jint 50), ("location".data, JVal.jstr "syd".data),
       ("productName".data, JVal.jstr "beef".data)]).cache "coldchain/batch321/sensor".data
      [("ts".data, JVal.jint 3), ("temp".data, JVal.jfloat 3 [5]),
       ("hum".data, JVal.jint 50), ("location".data, JVal.jstr "syd".data),
       ("productName".data, JVal.jstr "beef".data)]).writes = [] ∧
    (on_message "t3".data (on_message "t2".data (on_message "t1".data emptyCache "coldchain/batch321/sensor".data
      [("ts".data, JVal.jint 1), ("temp".data, JVal.jfloat 1 [0]),
       ("hum".data, JVal.jint 50), ("location".data, JVal.jstr "syd".data),
       ("productName".data, JVal.jstr "beef".data)]).cache "coldchain/batch321/sensor".data
      [("ts".data, JVal.jint 2), ("temp".data, JVal.jfloat 2 [0]),
       ("hum".data, JVal.jint 50), ("location".data, JVal.jstr "syd".data),
       ("productName".data, JVal.jstr "beef".data)]).cache "coldchain/batch321/sensor".data
      [("ts".data, JVal.jint 3), ("temp".data, JVal.jfloat 3 [5]),
       ("hum".data, JVal.jint 50), ("location".data, JVal.jstr "syd".data),
       ("productName".data, JVal.jstr "beef".data)]).cache "batch321".data =
      [⟨"batch321".data, JVal.jint 1, JVal.jfloat 1 [0], JVal.jint 50,
       JVal.jstr "syd".data, JVal.jstr "beef".data,
       calc_sha256
         [("ts".data, JVal.jint 1), ("temp".data, JVal.jfloat 1 [0]),
          ("hum".data, JVal.jint 50), ("location".data, JVal.jstr "syd".data),
          ("productName".data, JVal.jstr "beef".data)]⟩,
       ⟨"batch321".data, JVal.jint 2, JVal.jfloat 2 [0], JVal.jint 50,
        JVal.jstr "syd".data, JVal.jstr "beef".data,
        calc_sha256
          [("ts".data, JVal.jint 2), ("temp".data, JVal.jfloat 2 [0]),
           ("hum".data, JVal.jint 50), ("location".data, JVal.jstr "syd".data),
           ("productName".data, JVal.jstr "beef".data)]⟩,
       ⟨"batch321".data, JVal.jint 3, JVal.jfloat 3 [5], JVal.jint 50,
        JVal.jstr "syd".data, JVal.jstr "beef".data,
        calc_sha256
          [("ts".data, JVal.jint 3), ("temp".data, JVal.jfloat 3 [5]),
           ("hum".data, JVal.jint 50), ("location".data, JVal.jstr "syd".data),
           ("productName".data, JVal.jstr "beef".data)]⟩] ∧
    (on_message "t4".data (on_message "t3".data (on_message "t2".data (on_message "t1".data emptyCache "coldchain/batch321/sensor".data
      [("ts".data, JVal.jint 1), ("temp".data, JVal.jfloat 1 [0]),
       ("hum".data, JVal.jint 50), ("location".data, JVal.jstr "syd".data),
       ("productName".data, JVal.jstr "beef".data)]).cache "coldchain/batch321/sensor".data
      [("ts".data, JVal.jint 2), ("temp".data, JVal.jfloat 2 [0]),
       ("hum".data, JVal.jint 50), ("location".data, JVal.jstr "syd".data),
       ("productName".data, JVal.jstr "beef".data)]).cache "coldchain/batch321/sensor".data
      [("ts".data, JVal.jint 3), ("temp".data, JVal.jfloat 3 [5]),
       ("hum".data, JVal.jint 50), ("location".data, JVal.jstr "syd".data),
       ("productName".data, JVal.jstr "beef".data)]).cache "coldchain/batch321/sensor".data
      [("ts".data, JVal.jint 4), ("temp".data, JVal.jfloat 4 [0]),
       ("hum".data, JVal.jint 50), ("location".data, JVal.jstr "syd".data),
       ("productName".data, JVal.jstr "beef".data)]).writes =
      [⟨fileName "batch321".data "t4".data,
        [⟨"batch321".data, JVal.jint 1, JVal.jfloat 1 [0], JVal.jint 50,
         JVal.jstr "syd".data, JVal.jstr "beef".data,
         calc_sha256
           [("ts".data, JVal.jint 1), ("temp".data, JVal.jfloat 1 [0]),
            ("hum".data, JVal.jint 50), ("location".data, JVal.jstr "syd".data),
            ("productName".data, JVal.jstr "beef".data)]⟩,
         ⟨"batch321".data, JVal.jint 2, JVal.jfloat 2 [0], JVal.jint 50,
          JVal.jstr "syd".data, JVal.jstr "beef".data,
          calc_sha256
            [("ts".data, JVal.jint 2), ("temp".data, JVal.jfloat 2 [0]),
             ("hum".data, JVal.jint 50), ("location".data, JVal.jstr "syd".data),
             ("productName".data, JVal.jstr "beef".data)]⟩,
         ⟨"batch321".data, JVal.jint 3, JVal.jfloat 3 [5], JVal.jint 50,
          JVal.jstr "syd".data, JVal.jstr "beef".data,
          calc_sha256
            [("ts".data, JVal.jint 3), ("temp".data, JVal.jfloat 3 [5]),
             ("hum".data, JVal.jint 50), ("location".data, JVal.jstr "syd".data),
             ("productName".data, JVal.jstr "beef".data)]⟩,
         ⟨"batch321".data, JVal.jint 4, JVal.jfloat 4 [0], JVal.jint 50,
          JVal.jstr "syd".data, JVal.jstr "beef".data,
          calc_sha256
            [("ts".data, JVal.jint 4), ("temp".data, JVal.jfloat 4 [0]),
             ("hum".data, JVal.jint 50), ("location".data, JVal.jstr "syd".data),
             ("productName".data, JVal.jstr "beef".data)]⟩]⟩] ∧
    (on_message "t4".data (on_message "t3".data (on_message "t2".data (on_message "t1".data emptyCache "coldchain/batch321/sensor".data
      [("ts".data, JVal.jint 1), ("temp".data, JVal.jfloat 1 [0]),
       ("hum".data, JVal.jint 50), ("location".data, JVal.jstr "syd".data),
       ("productName".data, JVal.jstr "beef".data)]).cache "coldchain/batch321/sensor".data
      [("ts".data, JVal.jint 2), ("temp".data, JVal.jfloat 2 [0]),
       ("hum".data, JVal.jint 50), ("location".data, JVal.jstr "syd".data),
       ("productName".data, JVal.jstr "beef".data)]).cache "coldchain/batch321/sensor".data
      [("ts".data, JVal.jint 3), ("temp".data, JVal.jfloat 3 [5]),
       ("hum".data, JVal.jint 50), ("location".data, JVal.jstr "syd".data),
       ("productName".data, JVal.jstr "beef".data)]).cache "coldchain/batch321/sensor".data
      [("ts".data, JVal.jint 4), ("temp".data, JVal.jfloat 4 [0]),
       ("hum".data, JVal.jint 50), ("location".data, JVal.jstr "syd".data),
       ("productName".data, JVal.jstr "beef".data)]).cache "batch321".data = [] ∧
    (on_message "t5".data (on_message "t4".data (on_message "t3".data (on_message "t2".data (on_message "t1".data emptyCache "coldchain/batch321/sensor".data
      [("ts".data, JVal.jint 1), ("temp".data, JVal.jfloat 1 [0]),
       ("hum".data, JVal.jint 50), ("location".data, JVal.jstr "syd".data),
       ("productName".data, JVal.jstr "beef".data)]).cache "coldchain/batch321/sensor".data
      [("ts".data, JVal.jint 2), ("temp".data, JVal.jfloat 2 [0]),
       ("hum".data, JVal.jint 50), ("location".data, JVal.jstr "syd".data),
       ("productName".data, JVal.jstr "beef".data)]).cache "coldchain/batch321/sensor".data
      [("ts".data, JVal.jint 3), ("temp".data, JVal.jfloat 3 [5]),
       ("hum".data, JVal.jint 50), ("location".data, JVal.jstr "syd".data),
       ("productName".data, JVal.jstr "beef".data)]).cache "coldchain/batch321/sensor".data
      [("ts".data, JVal.jint 4), ("temp".data, JVal.jfloat 4 [0]),
       ("hum".data, JVal.jint 50), ("location".data, JVal.jstr "syd".data),
       ("productName".data, JVal.jstr "beef".data)]).cache "coldchain/batch321/sensor".data
      [("ts".data, JVal.jint 5), ("temp".data, JVal.jint 5),
       ("hum".data, JVal.jint 50), ("location".data, JVal.jstr "syd".data),
       ("productName".data, JVal.jstr "beef".data)]).writes = [] ∧
    (on_message "t5".data (on_message "t4".data (on_message "t3".data (on_message "t2".data (on_message "t1".data emptyCache "coldchain/batch321/sensor".data
      [("ts".data, JVal.jint 1), ("temp".data, JVal.jfloat 1 [0]),
       ("hum".data, JVal.jint 50), ("location".data, JVal.jstr "syd".data),
       ("productName".data, JVal.jstr "beef".data)]).cache "coldchain/batch321/sensor".data
      [("ts".data, JVal.jint 2), ("temp".data, JVal.jfloat 2 [0]),
       ("hum".data, JVal.jint 50), ("location".data, JVal.jstr "syd".data),
       ("productName".data, JVal.jstr "beef".data)]).cache "coldchain/batch321/sensor".data
      [("ts".data, JVal.jint 3), ("temp".data, JVal.jfloat 3 [5]),
       ("hum".data, JVal.jint 50), ("location".data, JVal.jstr "syd".data),
       ("productName".data, JVal.jstr "beef".data)]).cache "coldchain/batch321/sensor".data
      [("ts".data, JVal.jint 4), ("temp".data, JVal.jfloat 4 [0]),
       ("hum".data, JVal.jint 50), ("location".data, JVal.jstr "syd".data),
       ("productName".data, JVal.jstr "beef".data)]).cache "coldchain/batch321/sensor".data
      [("ts".data, JVal.jint 5), ("temp".data, JVal.jint 5),
       ("hum".data, JVal.jint 50), ("location".data, JVal.jstr "syd".data),
       ("productName".data, JVal.jstr "beef".data)]).cache "batch321".data =
      [⟨"batch321".data, JVal.jint 5, JVal.jint 5, JVal.jint 50,
       JVal.jstr "syd".data, JVal.jstr "beef".data,
       calc_sha256
         [("ts".data, JVal.jint 5), ("temp".data, JVal.jint 5),
          ("hum".data, JVal.jint 50), ("location".data, JVal.jstr "syd".data),
          ("productName".data, JVal.jstr "beef".data)]⟩] :=
  seal_exactly_at_threshold "coldchain/batch321/sensor".data "batch321".data emptyCache
    "t1".data "t2".data "t3".data "t4".data "t5".data
    [("ts".data, JVal.jint 1), ("temp".data, JVal.jfloat 1 [0]),
    ("hum".data, JVal.jint 50), ("location".data, JVal.jstr "syd".data),
    ("productName".data, JVal.jstr "beef".data)]
    [("ts".data, JVal.jint 2), ("temp".data, JVal.jfloat 2 [0]),
    ("hum".data, JVal.jint 50), ("location".data, JVal.jstr "syd".data),
    ("productName".data, JVal.jstr "beef".data)]
    [("ts".data, JVal.jint 3), ("temp".data, JVal.jfloat 3 [5]),
    ("hum".data, JVal.jint 50), ("location".data, JVal.jstr "syd".data),
    ("productName".data, JVal.jstr "beef".data)]
    [("ts".data, JVal.jint 4), ("temp".data, JVal.jfloat 4 [0]),
    ("hum".data, JVal.jint 50), ("location".data, JVal.jstr "syd".data),
    ("productName".data, JVal.jstr "beef".data)]
    [("ts".data, JVal.jint 5), ("temp".data, JVal.jint 5),
    ("hum".data, JVal.jint 50), ("location".data, JVal.jstr "syd".data),
    ("productName".data, JVal.jstr "beef".data)]
    (JVal.jint 1) (JVal.jfloat 1 [0]) (JVal.jint 50) (JVal.jstr "syd".data)
    (JVal.jstr "beef".data)
    (JVal.jint 2) (JVal.jfloat 2 [0]) (JVal.jint 50) (JVal.jstr "syd".data)
    (JVal.jstr "beef".data)
    (JVal.jint 3) (JVal.jfloat 3 [5]) (JVal.jint 50) (JVal.jstr "syd".data)
    (JVal.jstr "beef".data)
    (JVal.jint 4) (JVal.jfloat 4 [0]) (JVal.jint 50) (JVal.jstr "syd".data)
    (JVal.jstr "beef".data)
    (JVal.jint 5) (JVal.jint 5) (JVal.jint 50) (JVal.jstr "syd".data)
    (JVal.jstr "beef".data)
    (by decide) rfl
    (by decide) (by decide) (by decide) (by decide) (by decide)
    (by decide) (by decide)
    (by decide) (by decide) (by decide) (by decide) (by decide)
    (by decide) (by decide)
    (by decide) (by decide) (by decide) (by decide) (by decide)
    (by decide) (by decide)
    (by decide) (by decide) (by decide) (by decide) (by decide)
    (by decide) (by decide)
    (by decide) (by decide) (by decide) (by decide) (by decide)
    (by decide) (by decide)

/-- C4 counterexample: on an empty fingerprint list the aggregator does
not fail with an `EmptyBatch` error — it returns normally with `None`
(`ok none`), which its caller then treats as an ordinary value. -/
theorem merkle_empty_returns_none :
    compute_merkle_root [] = Except.ok none := rfl

/-- C4 (amended): on an empty fingerprint list `compute_merkle_root`
returns `None` — a normal return carrying no root, not a raised error —
and on a singleton list `[h]` it returns `h` itself unchanged. -/
theorem merkle_empty_none_singleton_identity :
    compute_merkle_root [] = Except.ok none ∧
    ∀ h : Str, compute_merkle_root [h] = Except.ok (some h) := by
  refine ⟨rfl, fun h => ?_⟩
  show (merkleLoop [h]).map some = Except.ok (some h)
  rw [merkleLoop_single]
  rfl

/-- Witness for C4 at a concrete singleton fingerprint. -/
theorem merkle_singleton_identity_w :
    compute_merkle_root ["ab".data] = Except.ok (some "ab".data) :=
  merkle_empty_none_singleton_identity.2 "ab".data

/-- C5 counterexample: a message missing only `ts` — with numeric `temp`
and `hum` — is not acknowledged as consumed: the record construction
raises `KeyError` and the handler nacks it (`basic_nack`,
`requeue=False`). -/
theorem missing_ts_is_nacked :
    (on_message "t0".data emptyCache "coldchain/batch123/sensor".data
        [("temp".data, JVal.jint 1), ("hum".data, JVal.jint 2),
         ("location".data, JVal.jstr "x".data),
         ("productName".data, JVal.jstr "y".data)]).ack = Ack.nack := by
  decide

/-- C5 (amended): a malformed message — missing `temp`, `hum`, `ts`,
`location` or `productName`, or with non-numeric `temp` or `hum` — never
enters any batch: the cache and the write set are untouched. It is
acknowledged as consumed (`ack`) exactly when the `temp`/`hum` type check
rejects it; a message passing that check but missing one of the other
fields raises and is nacked without requeue, still appending nothing. -/
theorem malformed_appends_nothing (now : Str) (st : Cache) (rk k : Str)
    (p : Payload) (hk : (splitSlash rk).get? 1 = some k)
    (hmal : ¬ (isNumber (getField p kTemp) = true ∧
               isNumber (getField p kHum) = true ∧
               (getField p kTs).isSome = true ∧
               (getField p kLocation).isSome = true ∧
               (getField p kProductName).isSome = true)) :
    (on_message now st rk p).cache = st ∧
    (on_message now st rk p).writes = [] ∧
    (on_message now st rk p).ack =
      (if isNumber (getField p kTemp) && isNumber (getField p kHum) then
        Ack.nack
      else Ack.ack) := by
  rw [on_message_malformed now st rk k p hk hmal]
  exact ⟨rfl, rfl, rfl⟩

/-- Witness for C5 (amended) at a concrete message missing `hum`. -/
theorem malformed_appends_nothing_w :
    (on_message "t0".data emptyCache "coldchain/batch123/sensor".data
        [("temp".data, JVal.jint 1), ("ts".data, JVal.jint 9),
         ("location".data, JVal.jstr "x".data),
         ("productName".data, JVal.jstr "y".data)]).cache = emptyCache ∧
    (on_message "t0".data emptyCache "coldchain/batch123/sensor".data
        [("temp".data, JVal.jint 1), ("ts".data, JVal.jint 9),
         ("location".data, JVal.jstr "x".data),
         ("productName".data, JVal.jstr "y".data)]).writes = [] ∧
    (on_message "t0".data emptyCache "coldchain/batch123/sensor".data
        [("temp".data, JVal.jint 1), ("ts".data, JVal.jint 9),
         ("location".data, JVal.jstr "x".data),
         ("productName".data, JVal.jstr "y".data)]).ack =
      (if isNumber (getField
            [("temp".data, JVal.jint 1), ("ts".data, JVal.jint 9),
            ("location".data, JVal.jstr "x".data),
            ("productName".data, JVal.jstr "y".data)] kTemp) &&
          isNumber (getField
            [("temp".data, JVal.jint 1), ("ts".data, JVal.jint 9),
            ("location".data, JVal.jstr "x".data),
            ("productName".data, JVal.jstr "y".data)] kHum) then
        Ack.nack
      else Ack.ack) :=
  malformed_appends_nothing "t0".data emptyCache
    "coldchain/batch123/sensor".data "batch123".data
    [("temp".data, JVal.jint 1), ("ts".data, JVal.jint 9),
         ("location".data, JVal.jstr "x".data),
         ("productName".data, JVal.jstr "y".data)] (by decide) (by decide)

/-- C6: for every pair of valid payloads carrying the same set of
field/value pairs in different order (with pairwise-distinct keys, as in
any decoded JSON object), `calc_sha256` is identical — the fingerprint is
invariant under any permutation of the payload's fields. -/
theorem fingerprint_field_order_invariant (p1 p2 : Payload)
    (hval : isNumber (getField p1 kTemp) = true ∧
            isNumber (getField p1 kHum) = true ∧
            (getField p1 kTs).isSome = true ∧
            (getField p1 kLocation).isSome = true ∧
            (getField p1 kProductName).isSome = true)
    (hperm : p1.Perm p2) (hnd : (p1.map Prod.fst).Nodup) :
    calc_sha256 p1 = calc_sha256 p2 :=
  calc_sha256_perm p1 p2 hperm hnd

/-- Witness for C6: a concrete payload against its reversal. -/
theorem fingerprint_field_order_invariant_w :
    calc_sha256
      [("temp".data, JVal.jint 3), ("hum".data, JVal.jint 4),
       ("ts".data, JVal.jint 7), ("location".data, JVal.jstr "x".data),
       ("productName".data, JVal.jstr "y".data)] =
    calc_sha256
      ([("temp".data, JVal.jint 3), ("hum".data, JVal.jint 4),
       ("ts".data, JVal.jint 7), ("location".data, JVal.jstr "x".data),
       ("productName".data, JVal.jstr "y".data)]).reverse :=
  fingerprint_field_order_invariant _ _ (by decide)
    (List.reverse_perm _).symm (by decide)

/-- C7: emitting the same sealed batch twice — two flushes whose caches
hold the same accumulated records for the key, triggered by the same
event at different wall-clock times — each writes exactly one artifact,
and the two serialized artifact bodies are byte-identical: the content
is a deterministic function of the record list alone (only the file
name embeds the clock), so a retried write is safe to repeat. -/
theorem artifact_bytes_deterministic (rk k : Str) (st1 st2 : Cache)
    (n1 n2 : Str) (p : Payload) (ts temp hum loc pn : JVal)
    (hk : (splitSlash rk).get? 1 = some k)
    (hts : getField p kTs = some ts)
    (htemp : getField p kTemp = some temp)
    (hhum : getField p kHum = some hum)
    (hloc : getField p kLocation = some loc)
    (hpn : getField p kProductName = some pn)
    (hnt : isNumber (some temp) = true)
    (hnh : isNumber (some hum) = true)
    (heq : st1 k = st2 k) (hlen : 3 ≤ (st1 k).length) :
    (on_message n1 st1 rk p).writes.length = 1 ∧
    (on_message n1 st1 rk p).writes.map
        (fun w => utf8Encode (artifactContent w.records)) =
      (on_message n2 st2 rk p).writes.map
        (fun w => utf8Encode (artifactContent w.records)) := by
  have hlen2 : 3 ≤ (st2 k).length := heq ▸ hlen
  have e1 := on_message_valid_flush n1 st1 rk k p ts temp hum loc pn (st1 k)
    hk hts htemp hhum hloc hpn hnt hnh rfl (by simp only [MAX_PER_BATCH]; omega)
  have e2 := on_message_valid_flush n2 st2 rk k p ts temp hum loc pn (st2 k)
    hk hts htemp hhum hloc hpn hnt hnh rfl (by simp only [MAX_PER_BATCH]; omega)
  rw [e1, e2]
  exact ⟨rfl, by simp [heq]⟩

/-- Witness for C7: the same three accumulated records flushed at two
different timestamps. -/
theorem artifact_bytes_deterministic_w :
    (on_message "t1".data
      (fun x => [⟨"batch1".data, JVal.jint 0, JVal.jint 1, JVal.jint 2, JVal.jnull,
       JVal.jnull, "aa".data⟩,
      ⟨"batch1".data, JVal.jint 0, JVal.jint 1, JVal.jint 2, JVal.jnull,
       JVal.jnull, "aa".data⟩,
      ⟨"batch1".data, JVal.jint 0, JVal.jint 1, JVal.jint 2, JVal.jnull,
       JVal.jnull, "aa".data⟩])
      "coldchain/batch1/sensor".data
      [("temp".data, JVal.jint 1), ("hum".data, JVal.jint 2),
       ("ts".data, JVal.jint 7), ("location".data, JVal.jstr "x".data),
       ("productName".data, JVal.jstr "y".data)]).writes.length = 1 ∧
    (on_message "t1".data
      (fun x => [⟨"batch1".data, JVal.jint 0, JVal.jint 1, JVal.jint 2, JVal.jnull,
       JVal.jnull, "aa".data⟩,
      ⟨"batch1".data, JVal.jint 0, JVal.jint 1, JVal.jint 2, JVal.jnull,
       JVal.jnull, "aa".data⟩,
      ⟨"batch1".data, JVal.jint 0, JVal.jint 1, JVal.jint 2, JVal.jnull,
       JVal.jnull, "aa".data⟩])
      "coldchain/batch1/sensor".data
      [("temp".data, JVal.jint 1), ("hum".data, JVal.jint 2),
       ("ts".data, JVal.jint 7), ("location".data, JVal.jstr "x".data),
       ("productName".data, JVal.jstr "y".data)]).writes.map
        (fun w => utf8Encode (artifactContent w.records)) =
      (on_message "t2".data
      (fun x => [⟨"batch1".data, JVal.jint 0, JVal.jint 1, JVal.jint 2, JVal.jnull,
       JVal.jnull, "aa".data⟩,
      ⟨"batch1".data, JVal.jint 0, JVal.jint 1, JVal.jint 2, JVal.jnull,
       JVal.jnull, "aa".data⟩,
      ⟨"batch1".data, JVal.jint 0, JVal.jint 1, JVal.jint 2, JVal.jnull,
       JVal.jnull, "aa".data⟩])
      "coldchain/batch1/sensor".data
      [("temp".data, JVal.jint 1), ("hum".data, JVal.jint 2),
       ("ts".data, JVal.jint 7), ("location".data, JVal.jstr "x".data),
       ("productName".data, JVal.jstr "y".data)]).writes.map
        (fun w => utf8Encode (artifactContent w.records)) :=
  artifact_bytes_deterministic "coldchain/batch1/sensor".data
    "batch1".data _ _ "t1".data "t2".data _
    (JVal.jint 7) (JVal.jint 1) (JVal.jint 2) (JVal.jstr "x".data)
    (JVal.jstr "y".data) (by decide) (by decide) (by decide) (by decide)
    (by decide) (by decide) (by decide) (by decide) rfl (by decide)

/-- C8: on every nonempty list of decodable hex fingerprints the
Merkle loop terminates — it is well-founded because each level is
strictly shorter than the one before, even with odd-count padding — and
yields exactly one remaining fingerprint, returned as the root. -/
theorem merkle_nonempty_yields_root (l : List Str) (hne : l ≠ [])
    (hv : ∀ s ∈ l, (hexToBytes s).isSome = true) :
    ∃ r, compute_merkle_root l = Except.ok (some r) := by
  obtain ⟨r, hr⟩ := merkleLoop_ok l.length l le_rfl hne hv
  cases l with
  | nil => exact absurd rfl hne
  | cons x tl =>
    refine ⟨r, ?_⟩
    show (merkleLoop (x :: tl)).map some = Except.ok (some r)
    rw [hr]
    rfl

/-- Witness for C8 at a concrete three-element fingerprint list (odd
count, so the padding path is exercised). -/
theorem merkle_nonempty_yields_root_w :
    ∃ r, compute_merkle_root ["00".data, "ffff".data, "0a".data] =
      Except.ok (some r) :=
  merkle_nonempty_yields_root _ (by decide) (by decide)

/-- C9: a payload whose `temp` is a JSON boolean passes the numeric type
validation — Python `bool` is a subclass of `int`, so
`isinstance(temp, (int, float))` holds — hence the event is not rejected
as `InvalidType` but hashed, appended to its batch, acknowledged, and
counted toward the flush threshold. -/
theorem bool_temp_accepted (rk k now : Str) (st : Cache) (p : Payload)
    (b : Bool) (ts hum loc pn : JVal)
    (hk : (splitSlash rk).get? 1 = some k)
    (hts : getField p kTs = some ts)
    (htemp : getField p kTemp = some (JVal.jbool b))
    (hhum : getField p kHum = some hum)
    (hloc : getField p kLocation = some loc)
    (hpn : getField p kProductName = some pn)
    (hnh : isNumber (some hum) = true)
    (hsmall : (st k).length + 1 < MAX_PER_BATCH) :
    (on_message now st rk p).ack = Ack.ack ∧
    (on_message now st rk p).writes = [] ∧
    (on_message now st rk p).cache k =
      st k ++ [⟨k, ts, JVal.jbool b, hum, loc, pn, calc_sha256 p⟩] ∧
    ((on_message now st rk p).cache k).length = (st k).length + 1 := by
  have e := on_message_valid_noflush now st rk k p ts (JVal.jbool b) hum
    loc pn (st k) hk hts htemp hhum hloc hpn rfl hnh rfl hsmall
  rw [e]
  refine ⟨rfl, rfl, by simp [updateCache], by simp [updateCache]⟩

/-- Witness for C9: `temp` is the JSON boolean `true`; the event is
accepted, appended and counted. -/
theorem bool_temp_accepted_w :
    (on_message "t0".data emptyCache "coldchain/batch9/sensor".data
      [("temp".data, JVal.jbool true), ("hum".data, JVal.jint 2),
       ("ts".data, JVal.jint 7), ("location".data, JVal.jstr "x".data),
       ("productName".data, JVal.jstr "y".data)]).ack = Ack.ack ∧
    (on_message "t0".data emptyCache "coldchain/batch9/sensor".data
      [("temp".data, JVal.jbool true), ("hum".data, JVal.jint 2),
       ("ts".data, JVal.jint 7), ("location".data, JVal.jstr "x".data),
       ("productName".data, JVal.jstr "y".data)]).writes = [] ∧
    (on_message "t0".data emptyCache "coldchain/batch9/sensor".data
      [("temp".data, JVal.jbool true), ("hum".data, JVal.jint 2),
       ("ts".data, JVal.jint 7), ("location".data, JVal.jstr "x".data),
       ("productName".data, JVal.jstr "y".data)]).cache "batch9".data =
      emptyCache "batch9".data ++
        [⟨"batch9".data, JVal.jint 7, JVal.jbool true, JVal.jint 2,
          JVal.jstr "x".data, JVal.jstr "y".data,
          calc_sha256
            [("temp".data, JVal.jbool true), ("hum".data, JVal.jint 2),
            ("ts".data, JVal.jint 7), ("location".data, JVal.jstr "x".data),
            ("productName".data, JVal.jstr "y".data)]⟩] ∧
    ((on_message "t0".data emptyCache "coldchain/batch9/sensor".data
      [("temp".data, JVal.jbool true), ("hum".data, JVal.jint 2),
       ("ts".data, JVal.jint 7), ("location".data, JVal.jstr "x".data),
       ("productName".data, JVal.jstr "y".data)]).cache "batch9".data).length =
      (emptyCache "batch9".data).length + 1 :=
  bool_temp_accepted "coldchain/batch9/sensor".data "batch9".data
    "t0".data emptyCache _ true (JVal.jint 7) (JVal.jint 2)
    (JVal.jstr "x".data) (JVal.jstr "y".data) (by decide) (by decide)
    (by decide) (by decide) (by decide) (by decide) (by decide) (by decide)

/-- C10: starting from the empty cache, after every completed
message-handling step — over any message sequence whatever — every open
batch entry holds strictly fewer than `MAX_PER_BATCH` records: reaching
the threshold always empties the entry within the same step. -/
theorem cache_always_below_threshold (msgs : List Msg) (k : Str) :
    ((runMessages msgs emptyCache) k).length < MAX_PER_BATCH := by
  have main : ∀ (ms : List Msg) (cache : Cache),
      (∀ k', (cache k').length < MAX_PER_BATCH) →
      ∀ k', ((runMessages ms cache) k').length < MAX_PER_BATCH := by
    intro ms
    induction ms with
    | nil => intro cache h k'; exact h k'
    | cons m rest ih =>
      intro cache h k'
      unfold runMessages
      exact ih _
        (on_message_preserves_bound m.now cache m.routing_key m.payload h) k'
  exact main msgs emptyCache (fun k' => by simp [emptyCache, MAX_PER_BATCH]) k

end FoodChain
